import Mathlib

/-!
Shallow embedding of the CANSLIM scanner (files `canslim.py` and
`canslimprompt.py`) and verification of the frozen claims about it.

Modelling conventions:
- Python `float` values are modelled by `ℚ`; every numeric value the claims
  touch is a decimal literal that `float` represents and computes exactly.
- A Python `dict` with string keys is modelled by an association list together
  with `dictInsert`, which reproduces dict insertion semantics (update in
  place keeps the key position, a fresh key is appended).
- The network is external: a fetch attempt's outcome is an oracle argument,
  and a parsed `BeautifulSoup` document is the structure `Soup` below.
- Console printing, `time.sleep`, progress bars and the report formatting
  (`format_price`, `format_market_cap`, the percent strings and the `Summary`
  text) are presentation, excluded from the modelled core; the result record
  keeps the underlying values those strings are rendered from.
-/

/-- Python dict insertion on an association list: an existing key is updated
in place (its position is kept), a fresh key is appended at the end. -/
def dictInsert (d : List (String × String)) (k v : String) :
    List (String × String) :=
  if d.any (fun p => p.1 == k) then
    d.map (fun p => if p.1 == k then (k, v) else p)
  else
    d ++ [(k, v)]

/-- Python `list(d.values())`: the values of the dict in insertion order. -/
def dictValues (d : List (String × String)) : List String :=
  d.map (fun p => p.2)

/-- Whether `needle` occurs as a contiguous run somewhere in `hay`. -/
def hasSubstrAux (needle : List Char) : List Char → Bool
  | [] => needle.isEmpty
  | c :: cs => needle.isPrefixOf (c :: cs) || hasSubstrAux needle cs

/-- Python `'needle' in hay` on strings: substring containment. -/
def strIn (needle hay : String) : Bool :=
  hasSubstrAux needle.toList hay.toList

/-- Python whitespace for `.strip()` (the ASCII whitespace characters). -/
def isSpaceChar (c : Char) : Bool :=
  c = ' ' || c = '\t' || c = '\n' || c = '\r' || c = '\x0b' || c = '\x0c'

/-- Python `s.strip()`: drop leading and trailing whitespace. -/
def pyStrip (s : String) : String :=
  ⟨((s.toList.dropWhile isSpaceChar).reverse.dropWhile isSpaceChar).reverse⟩

/-- Model of `s.replace('$', '').replace(',', '')` from the growth
calculators: strips the currency symbol and the thousands separator (each a
one-character pattern replaced by the empty string, i.e. every occurrence of
the character is removed). -/
def stripCurrency (s : String) : String :=
  ⟨(s.toList.filter (fun c => c ≠ '$')).filter (fun c => c ≠ ',')⟩

/-- Numeric value of a digit string, most significant digit first. -/
def digitsVal (cs : List Char) : ℕ :=
  cs.foldl (fun n c => n * 10 + (c.toNat - '0'.toNat)) 0

/-- Split a character list on a separator character (Python `s.split(sep)`). -/
def splitOnChar (sep : Char) : List Char → List (List Char)
  | [] => [[]]
  | c :: cs =>
    let r := splitOnChar sep cs
    if c = sep then [] :: r
    else
      match r with
      | [] => [[c]]
      | h :: t => (c :: h) :: t

/-- The scanning stage of the `float(s)` model below: recognizes an optional
sign followed by digits with an optional decimal point, and returns the sign
flag (`true` for negative), the integer-part value, the fraction-part value
and the number of fraction digits. -/
def parseFloatScan (s : String) : Option (Bool × ℕ × ℕ × ℕ) :=
  let (neg, rest) :=
    match s.toList with
    | '-' :: t => (true, t)
    | '+' :: t => (false, t)
    | cs => (false, cs)
  match splitOnChar '.' rest with
  | [ip] =>
    if !ip.isEmpty && ip.all Char.isDigit then
      some (neg, digitsVal ip, 0, 0)
    else none
  | [ip, fp] =>
    if (!ip.isEmpty || !fp.isEmpty) && ip.all Char.isDigit
        && fp.all Char.isDigit then
      some (neg, digitsVal ip, digitsVal fp, fp.length)
    else none
  | _ => none

/-- Model of Python `float(s)` on the decimal literals this program feeds it:
an optional sign, then digits with an optional decimal point. Strings outside
this subset (exponents, `inf`, `nan`, inner whitespace) are treated as parse
failures; the EPS cells of the source site are plain currency decimals, and
every theorem that depends on parsing carries its parse result as a
hypothesis, so the restriction to this subset cannot make a claim vacuous. -/
def parseFloat (s : String) : Option ℚ :=
  (parseFloatScan s).map fun q =>
    (if q.1 then (-1 : ℚ) else 1) * ((q.2.1 : ℚ) + (q.2.2.1 : ℚ) / 10 ^ q.2.2.2)

/-- A `td` cell's text content (`cell.text`, before `.strip()`). -/
structure HtmlRow where
  cells : List String
deriving Repr, DecidableEq

/-- A `table` element: its `tr` rows in document order (`find_all('tr')`). -/
structure HtmlTable where
  rows : List HtmlRow
deriving Repr, DecidableEq

/-- A parsed page (`BeautifulSoup(response.text, 'html.parser')`): its
`table` elements in document order; `soup.find('table')` is `tables.head?`. -/
structure Soup where
  tables : List HtmlTable
deriving Repr, DecidableEq

/-- The inner fill loop of the EPS extractors:
`for i in range(1, len(columns)): eps_data[f'EPS {i}'] = columns[i].text.strip()`. -/
def buildEpsData (columns : List String) : List (String × String) :=
  (List.range' 1 (columns.length - 1)).foldl
    (fun d i => dictInsert d ("EPS " ++ toString i) (pyStrip (columns.getD i "")))
    []

/-- The row scan shared verbatim by `fetch_eps_data` and
`fetch_annual_eps_data` in both source files: skip rows with fewer than 3
cells, take the first row whose first cell's stripped text contains `"EPS"`,
fill the dict from its remaining cells and stop (`break`). -/
def epsRowScan : List HtmlRow → List (String × String)
  | [] => []
  | row :: rest =>
    let columns := row.cells
    if columns.length < 3 then
      epsRowScan rest
    else
      let period := pyStrip (columns.getD 0 "")
      if strIn "EPS" period then
        buildEpsData columns
      else
        epsRowScan rest

/-- The retry loop body of `fetch_data_with_retry`: `req` gives the outcome of
the attempt with a given index (a response, or `none` when the request raised
or had a non-success status). Returns the result together with the number of
attempts performed. -/
def retryLoop (req : ℕ → Option α) : ℕ → ℕ → Option α × ℕ
  | _, 0 => (none, 0)
  | attempt, n + 1 =>
    match req attempt with
    | some r => (some r, 1)
    | none =>
      let rest := retryLoop req (attempt + 1) n
      (rest.1, rest.2 + 1)

/-- The quote record obtained from the external quote source
(`yf.Ticker(ticker).info`); `none` fields model absent keys, read through
`.get(key, default)`. -/
structure StockInfo where
  shortName : Option String
  currentPrice : Option ℚ
  marketCap : Option ℚ
deriving Repr, DecidableEq

namespace Canslim

/-- `canslim.py` `fetch_data_with_retry(url, retries=3, timeout=10)`: try up
to `retries` attempts, return the first successful response immediately,
return `None` after exhausting all attempts. The HTTP request is the oracle
`req` (exceptions caught by the `except` clause are `none` outcomes). -/
def fetch_data_with_retry (req : ℕ → Option α) (retries : ℕ := 3) :
    Option α :=
  (retryLoop req 0 retries).1

/-- Number of attempts `fetch_data_with_retry` performs (loop iterations
executed) for the same oracle. -/
def fetch_attempts_used (req : ℕ → Option α) (retries : ℕ := 3) : ℕ :=
  (retryLoop req 0 retries).2

/-- The quarterly financials URL built by `canslim.py` `fetch_eps_data`. -/
def quarterly_url (ticker : String) : String :=
  "https://stockanalysis.com/stocks/" ++ ticker ++ "/financials/?p=quarterly"

/-- The annual financials URL built by `canslim.py` `fetch_annual_eps_data`. -/
def annual_url (ticker : String) : String :=
  "https://stockanalysis.com/stocks/" ++ ticker ++ "/financials/?p=annual"

/-- `canslim.py` `fetch_eps_data`, parameterized by the fetch outcome for the
quarterly URL (`None`, or a response whose body parses to a `Soup`): empty
dict when the fetch failed or no table exists, otherwise the scan result. -/
def fetch_eps_data (response : Option Soup) : List (String × String) :=
  match response with
  | none => []
  | some soup =>
    match soup.tables.head? with
    | none => []
    | some table => epsRowScan table.rows

/-- `canslim.py` `fetch_annual_eps_data`: identical body, parameterized by
the fetch outcome for the annual URL. -/
def fetch_annual_eps_data (response : Option Soup) : List (String × String) :=
  match response with
  | none => []
  | some soup =>
    match soup.tables.head? with
    | none => []
    | some table => epsRowScan table.rows

/-- `canslim.py` `calculate_quarterly_eps_growth`: `None` on fewer than 2
values, on a parse failure (the `except` clause) and on a zero previous
value; otherwise `(latest - previous) / previous * 100`. -/
def calculate_quarterly_eps_growth (eps_data : List (String × String)) :
    Option ℚ :=
  let eps_values := dictValues eps_data
  if eps_values.length < 2 then none
  else
    match parseFloat (stripCurrency (eps_values.getD 0 "")),
        parseFloat (stripCurrency (eps_values.getD 1 "")) with
    | some latest_eps, some previous_eps =>
      if previous_eps = 0 then none
      else some ((latest_eps - previous_eps) / previous_eps * 100)
    | _, _ => none

/-- `canslim.py` `calculate_annual_eps_growth`: `None` on fewer than 3
values, on a parse failure and on a zero baseline; otherwise compares the
value at position 0 with the value at position 2. -/
def calculate_annual_eps_growth (annual_eps_data : List (String × String)) :
    Option ℚ :=
  let eps_values := dictValues annual_eps_data
  if eps_values.length < 3 then none
  else
    match parseFloat (stripCurrency (eps_values.getD 0 "")),
        parseFloat (stripCurrency (eps_values.getD 2 "")) with
    | some latest_eps, some three_years_ago_eps =>
      if three_years_ago_eps = 0 then none
      else some ((latest_eps - three_years_ago_eps) / three_years_ago_eps * 100)
    | _, _ => none

/-- The result record `canslim.py` `analyze_stock` builds when the criteria
pass. The formatted display strings of the source record are rendered from
these fields; the rendering itself is presentation and outside the core. -/
structure ScreeningResult where
  ticker : String
  companyName : String
  stockPrice : ℚ
  marketCap : ℚ
  quarterlyGrowth : Option ℚ
  annualGrowth : Option ℚ
  epsData : List (String × String)
deriving Repr, DecidableEq

/-- `canslim.py` `analyze_stock`: the quote lookup may raise (the `.error`
case of `info?`, caught by the outer `try` and turned into `None`); the two
fetch outcomes are the oracle arguments. Returns `None` when the quarterly
growth is `None` or `< 25`, then when the annual growth is `None` or `< 25`,
otherwise the result record. -/
def analyze_stock (ticker : String) (info? : Except String StockInfo)
    (qResponse aResponse : Option Soup) : Option ScreeningResult :=
  match info? with
  | .error _ => none
  | .ok stock_info =>
    let eps_data := fetch_eps_data qResponse
    let annual_eps_data := fetch_annual_eps_data aResponse
    let quarterly_growth := calculate_quarterly_eps_growth eps_data
    let annual_growth := calculate_annual_eps_growth annual_eps_data
    if (match quarterly_growth with
        | none => true
        | some g => decide (g < 25)) then none
    else if (match annual_growth with
        | none => true
        | some g => decide (g < 25)) then none
    else
      some
        { ticker := ticker
          companyName := stock_info.shortName.getD "N/A"
          stockPrice := stock_info.currentPrice.getD 0
          marketCap := stock_info.marketCap.getD 0
          quarterlyGrowth := quarterly_growth
          annualGrowth := annual_growth
          epsData := eps_data }

end Canslim

namespace CanslimPrompt

/-- `canslimprompt.py` `fetch_data_with_retry`: same retry structure as the
`canslim.py` variant, except each attempt first draws a fresh user agent
(`ua` gives the agent for an attempt index) and sends it as a header; the
request outcome oracle therefore also depends on the chosen agent. -/
def fetch_data_with_retry (ua : ℕ → String)
    (req : ℕ → String → Option α) (retries : ℕ := 3) : Option α :=
  (retryLoop (fun attempt => req attempt (ua attempt)) 0 retries).1

/-- The quarterly financials URL built by `canslimprompt.py` `fetch_eps_data`. -/
def quarterly_url (ticker : String) : String :=
  "https://stockanalysis.com/stocks/" ++ ticker ++ "/financials/?p=quarterly"

/-- The annual financials URL built by `canslimprompt.py`
`fetch_annual_eps_data`. -/
def annual_url (ticker : String) : String :=
  "https://stockanalysis.com/stocks/" ++ ticker ++ "/financials/?p=annual"

/-- `canslimprompt.py` `fetch_eps_data`: same body as the `canslim.py`
variant, parameterized by the fetch outcome for the quarterly URL. -/
def fetch_eps_data (response : Option Soup) : List (String × String) :=
  match response with
  | none => []
  | some soup =>
    match soup.tables.head? with
    | none => []
    | some table => epsRowScan table.rows

/-- `canslimprompt.py` `fetch_annual_eps_data`: same body, parameterized by
the fetch outcome for the annual URL. -/
def fetch_annual_eps_data (response : Option Soup) : List (String × String) :=
  match response with
  | none => []
  | some soup =>
    match soup.tables.head? with
    | none => []
    | some table => epsRowScan table.rows

/-- `canslimprompt.py` `calculate_quarterly_eps_growth`: identical to the
`canslim.py` function of the same name. -/
def calculate_quarterly_eps_growth (eps_data : List (String × String)) :
    Option ℚ :=
  let eps_values := dictValues eps_data
  if eps_values.length < 2 then none
  else
    match parseFloat (stripCurrency (eps_values.getD 0 "")),
        parseFloat (stripCurrency (eps_values.getD 1 "")) with
    | some latest_eps, some previous_eps =>
      if previous_eps = 0 then none
      else some ((latest_eps - previous_eps) / previous_eps * 100)
    | _, _ => none

/-- `canslimprompt.py` `calculate_annual_eps_growth`: identical to the
`canslim.py` function of the same name. -/
def calculate_annual_eps_growth (annual_eps_data : List (String × String)) :
    Option ℚ :=
  let eps_values := dictValues annual_eps_data
  if eps_values.length < 3 then none
  else
    match parseFloat (stripCurrency (eps_values.getD 0 "")),
        parseFloat (stripCurrency (eps_values.getD 2 "")) with
    | some latest_eps, some three_years_ago_eps =>
      if three_years_ago_eps = 0 then none
      else some ((latest_eps - three_years_ago_eps) / three_years_ago_eps * 100)
    | _, _ => none

/-- The result record `canslimprompt.py` `analyze_stock` always builds on the
no-exception path. `meetsCriteria` is the `meets_criteria` flag; the
`Summary` text and the formatted display strings are rendered from these
fields and are presentation outside the core. -/
structure PromptResult where
  ticker : String
  companyName : String
  stockPrice : ℚ
  marketCap : ℚ
  quarterlyGrowth : Option ℚ
  annualGrowth : Option ℚ
  epsData : List (String × String)
  meetsCriteria : Bool
deriving Repr, DecidableEq

/-- `canslimprompt.py` `analyze_stock`: the quote lookup may raise (the
`.error` case, caught by the outer `try` and turned into `None`). A record
is always returned on the no-exception path; `meets_criteria` starts `True`
and is cleared when the quarterly growth is `None` or `<= 25`, and when the
annual growth is `None` or `<= 25`. -/
def analyze_stock (ticker : String) (info? : Except String StockInfo)
    (qResponse aResponse : Option Soup) : Option PromptResult :=
  match info? with
  | .error _ => none
  | .ok stock_info =>
    let eps_data := fetch_eps_data qResponse
    let annual_eps_data := fetch_annual_eps_data aResponse
    let quarterly_growth := calculate_quarterly_eps_growth eps_data
    let annual_growth := calculate_annual_eps_growth annual_eps_data
    let fails_quarterly : Bool :=
      match quarterly_growth with
      | none => true
      | some g => decide (g ≤ 25)
    let fails_annual : Bool :=
      match annual_growth with
      | none => true
      | some g => decide (g ≤ 25)
    let meets_criteria := !fails_quarterly && !fails_annual
    some
      { ticker := ticker
        companyName := stock_info.shortName.getD "N/A"
        stockPrice := stock_info.currentPrice.getD 0
        marketCap := stock_info.marketCap.getD 0
        quarterlyGrowth := quarterly_growth
        annualGrowth := annual_growth
        epsData := eps_data
        meetsCriteria := meets_criteria }

end CanslimPrompt

/-- The financial statement URL shape shared by both extractors: one base,
parameterized only by the quarterly/annual view selector `p`. -/
def financialsUrl (ticker p : String) : String :=
  "https://stockanalysis.com/stocks/" ++ ticker ++ "/financials/?p=" ++ p

/-- A quarterly financials page whose EPS row reads `$1.25` then `$1.00`:
quarterly growth exactly 25%. -/
def pageQuarterBoundary : Soup :=
  ⟨[⟨[⟨["EPS (Basic)", "$1.25", "$1.00"]⟩]⟩]⟩

/-- An annual financials page whose EPS row reads `$1.25`, `$1.10`, `$1.00`:
annual growth against position 2 is exactly 25%. -/
def pageAnnualBoundary : Soup :=
  ⟨[⟨[⟨["EPS (Basic)", "$1.25", "$1.10", "$1.00"]⟩]⟩]⟩

/-- A financials page with a table but no matching EPS row: one row without
`"EPS"` in its first cell, and one EPS-labelled row with fewer than 3 cells. -/
def pageNoEps : Soup :=
  ⟨[⟨[⟨["Revenue", "10", "12"]⟩, ⟨["EPS (Basic)"]⟩]⟩]⟩

/-- A quote record with every optional field absent. -/
def emptyInfo : StockInfo := ⟨none, none, none⟩

/-! ## Helper lemmas -/

theorem canslim_analyze_ok_isSome_iff (t : String) (info : StockInfo)
    (q a : Option Soup) :
    (Canslim.analyze_stock t (Except.ok info) q a).isSome = true ↔
      ((∃ g, Canslim.calculate_quarterly_eps_growth (Canslim.fetch_eps_data q) =
          some g ∧ 25 ≤ g) ∧
       (∃ g, Canslim.calculate_annual_eps_growth (Canslim.fetch_annual_eps_data a) =
          some g ∧ 25 ≤ g)) := by
  unfold Canslim.analyze_stock
  cases hq : Canslim.calculate_quarterly_eps_growth (Canslim.fetch_eps_data q) with
  | none => simp [hq]
  | some g =>
    cases ha : Canslim.calculate_annual_eps_growth (Canslim.fetch_annual_eps_data a) with
    | none => simp [hq, ha]
    | some g' =>
      by_cases hg : g < 25 <;> by_cases hg' : g' < 25 <;>
        simp [hq, ha, hg, hg', not_lt]
      exact ⟨not_lt.mp hg, not_lt.mp hg'⟩

theorem prompt_analyze_ok_meets_iff (t : String) (info : StockInfo)
    (q a : Option Soup) :
    (CanslimPrompt.analyze_stock t (Except.ok info) q a).map
        CanslimPrompt.PromptResult.meetsCriteria = some true ↔
      ((∃ g, CanslimPrompt.calculate_quarterly_eps_growth
          (CanslimPrompt.fetch_eps_data q) = some g ∧ 25 < g) ∧
       (∃ g, CanslimPrompt.calculate_annual_eps_growth
          (CanslimPrompt.fetch_annual_eps_data a) = some g ∧ 25 < g)) := by
  unfold CanslimPrompt.analyze_stock
  cases hq : CanslimPrompt.calculate_quarterly_eps_growth (CanslimPrompt.fetch_eps_data q) with
  | none => simp [hq]
  | some g =>
    cases ha : CanslimPrompt.calculate_annual_eps_growth (CanslimPrompt.fetch_annual_eps_data a) with
    | none => simp [hq, ha]
    | some g' => simp [hq, ha, not_le]

theorem canslim_analyze_error_eq_none (t e : String) (q a : Option Soup) :
    Canslim.analyze_stock t (Except.error e) q a = none := rfl

theorem prompt_analyze_error_eq_none (t e : String) (q a : Option Soup) :
    CanslimPrompt.analyze_stock t (Except.error e) q a = none := rfl

theorem prompt_analyze_ok_isSome (t : String) (info : StockInfo)
    (q a : Option Soup) :
    (CanslimPrompt.analyze_stock t (Except.ok info) q a).isSome = true := rfl

theorem retryLoop_all_fail {α : Type} (req : ℕ → Option α) :
    ∀ (n s : ℕ), (∀ j, j < n → req (s + j) = none) →
      retryLoop req s n = (none, n) := by
  intro n
  induction n with
  | zero => intro s _; rfl
  | succ m ih =>
    intro s h
    have h0 : req s = none := by simpa using h 0 (Nat.succ_pos m)
    show retryLoop req s (m + 1) = (none, m + 1)
    rw [retryLoop, h0]
    have hrest : retryLoop req (s + 1) m = (none, m) := by
      refine ih (s + 1) (fun j hj => ?_)
      have := h (j + 1) (by omega)
      simpa [Nat.add_assoc, Nat.add_comm 1 j] using this
    simp [hrest]

theorem retryLoop_first_success {α : Type} (req : ℕ → Option α) :
    ∀ (n s i : ℕ) (b : α), i < n → (∀ j, j < i → req (s + j) = none) →
      req (s + i) = some b → retryLoop req s n = (some b, i + 1) := by
  intro n
  induction n with
  | zero => intro s i b hi _ _; omega
  | succ m ih =>
    intro s i b hi hfail hsucc
    cases i with
    | zero =>
      have h0 : req s = some b := by simpa using hsucc
      rw [retryLoop, h0]
    | succ k =>
      have h0 : req s = none := by simpa using hfail 0 (Nat.succ_pos k)
      rw [retryLoop, h0]
      have hs : retryLoop req (s + 1) m = (some b, k + 1) := by
        refine ih (s + 1) k b (by omega) (fun j hj => ?_) ?_
        · have := hfail (j + 1) (by omega)
          simpa [Nat.add_assoc, Nat.add_comm 1 j] using this
        · have heq : s + (k + 1) = s + 1 + k := by omega
          rw [heq] at hsucc
          exact hsucc
      simp [hs]

theorem epsRowScan_cons_short (row : HtmlRow) (rest : List HtmlRow)
    (h : row.cells.length < 3) :
    epsRowScan (row :: rest) = epsRowScan rest := by
  show (if row.cells.length < 3 then epsRowScan rest
    else if strIn "EPS" (pyStrip (row.cells.getD 0 "")) then buildEpsData row.cells
    else epsRowScan rest) = epsRowScan rest
  rw [if_pos h]

theorem epsRowScan_cons_hit (row : HtmlRow) (rest : List HtmlRow)
    (h : ¬ row.cells.length < 3)
    (heps : strIn "EPS" (pyStrip (row.cells.getD 0 "")) = true) :
    epsRowScan (row :: rest) = buildEpsData row.cells := by
  show (if row.cells.length < 3 then epsRowScan rest
    else if strIn "EPS" (pyStrip (row.cells.getD 0 "")) then buildEpsData row.cells
    else epsRowScan rest) = buildEpsData row.cells
  rw [if_neg h, if_pos heps]

theorem epsRowScan_cons_miss (row : HtmlRow) (rest : List HtmlRow)
    (h : ¬ row.cells.length < 3)
    (heps : strIn "EPS" (pyStrip (row.cells.getD 0 "")) = false) :
    epsRowScan (row :: rest) = epsRowScan rest := by
  show (if row.cells.length < 3 then epsRowScan rest
    else if strIn "EPS" (pyStrip (row.cells.getD 0 "")) then buildEpsData row.cells
    else epsRowScan rest) = epsRowScan rest
  rw [if_neg h, if_neg (by simp only [heps]; exact Bool.false_ne_true)]

theorem epsRowScan_no_match (rows : List HtmlRow)
    (h : ∀ row ∈ rows, row.cells.length < 3 ∨
      strIn "EPS" (pyStrip (row.cells.getD 0 "")) = false) :
    epsRowScan rows = [] := by
  induction rows with
  | nil => rfl
  | cons row rest ih =>
    have hr := h row (List.mem_cons_self row rest)
    have htail : epsRowScan rest = [] :=
      ih (fun r hr' => h r (List.mem_cons_of_mem _ hr'))
    by_cases h3 : row.cells.length < 3
    · rw [epsRowScan_cons_short row rest h3]; exact htail
    · rcases hr with hlt | hno
      · omega
      · rw [epsRowScan_cons_miss row rest h3 hno]; exact htail

theorem length_le_dictInsert (d : List (String × String)) (k v : String) :
    d.length ≤ (dictInsert d k v).length := by
  unfold dictInsert
  split <;> simp

theorem length_le_foldl_dictInsert (l : List ℕ) (f g : ℕ → String) :
    ∀ d : List (String × String),
      d.length ≤ (l.foldl (fun d i => dictInsert d (f i) (g i)) d).length := by
  induction l with
  | nil => intro d; simp
  | cons i rest ih =>
    intro d
    exact le_trans (length_le_dictInsert d (f i) (g i)) (ih _)

theorem buildEpsData_two_le (columns : List String) (h : 3 ≤ columns.length) :
    2 ≤ (buildEpsData columns).length := by
  unfold buildEpsData
  obtain ⟨k, hk⟩ : ∃ k, columns.length - 1 = k + 2 := ⟨columns.length - 3, by omega⟩
  rw [hk]
  rw [show List.range' 1 (k + 2) = 1 :: 2 :: List.range' 3 k from rfl]
  simp only [List.foldl_cons]
  have hne : (("EPS " ++ toString (1 : ℕ)) == ("EPS " ++ toString (2 : ℕ))) = false := by
    decide
  have e2 : dictInsert
      (dictInsert [] ("EPS " ++ toString 1) (pyStrip (columns.getD 1 "")))
      ("EPS " ++ toString 2) (pyStrip (columns.getD 2 "")) =
      [("EPS " ++ toString 1, pyStrip (columns.getD 1 "")),
       ("EPS " ++ toString 2, pyStrip (columns.getD 2 ""))] := by
    simp [dictInsert, hne]
  rw [e2]
  exact le_trans (by simp)
    (length_le_foldl_dictInsert (List.range' 3 k)
      (fun i => "EPS " ++ toString i) (fun i => pyStrip (columns.getD i ""))
      [("EPS " ++ toString 1, pyStrip (columns.getD 1 "")),
       ("EPS " ++ toString 2, pyStrip (columns.getD 2 ""))])

theorem epsRowScan_nil_or_two (rows : List HtmlRow) :
    epsRowScan rows = [] ∨ 2 ≤ (epsRowScan rows).length := by
  induction rows with
  | nil => exact Or.inl rfl
  | cons row rest ih =>
    by_cases h3 : row.cells.length < 3
    · rw [epsRowScan_cons_short row rest h3]; exact ih
    · cases heps : strIn "EPS" (pyStrip (row.cells.getD 0 "")) with
      | true =>
        rw [epsRowScan_cons_hit row rest h3 heps]
        exact Or.inr (buildEpsData_two_le row.cells (by omega))
      | false =>
        rw [epsRowScan_cons_miss row rest h3 heps]; exact ih

theorem fetch_eps_data_nil_or_two (r : Option Soup) :
    Canslim.fetch_eps_data r = [] ∨ 2 ≤ (Canslim.fetch_eps_data r).length := by
  cases r with
  | none => exact Or.inl rfl
  | some soup =>
    cases h : soup.tables.head? with
    | none => simp [Canslim.fetch_eps_data, h]
    | some tbl => simpa [Canslim.fetch_eps_data, h] using epsRowScan_nil_or_two tbl.rows

theorem quarterly_growth_short_none (d : List (String × String))
    (h : (dictValues d).length < 2) :
    Canslim.calculate_quarterly_eps_growth d = none := by
  show (if (dictValues d).length < 2 then none
    else match parseFloat (stripCurrency ((dictValues d).getD 0 "")),
        parseFloat (stripCurrency ((dictValues d).getD 1 "")) with
      | some latest_eps, some previous_eps =>
        if previous_eps = 0 then none
        else some ((latest_eps - previous_eps) / previous_eps * 100)
      | _, _ => none) = none
  rw [if_pos h]

theorem annual_growth_short_none (d : List (String × String))
    (h : (dictValues d).length < 3) :
    Canslim.calculate_annual_eps_growth d = none := by
  show (if (dictValues d).length < 3 then none
    else match parseFloat (stripCurrency ((dictValues d).getD 0 "")),
        parseFloat (stripCurrency ((dictValues d).getD 2 "")) with
      | some latest_eps, some three_years_ago_eps =>
        if three_years_ago_eps = 0 then none
        else some ((latest_eps - three_years_ago_eps) / three_years_ago_eps * 100)
      | _, _ => none) = none
  rw [if_pos h]

theorem quarterly_growth_zero_baseline_none (d : List (String × String))
    (h1 : parseFloat (stripCurrency ((dictValues d).getD 1 "")) = some 0) :
    Canslim.calculate_quarterly_eps_growth d = none := by
  show (if (dictValues d).length < 2 then none
    else match parseFloat (stripCurrency ((dictValues d).getD 0 "")),
        parseFloat (stripCurrency ((dictValues d).getD 1 "")) with
      | some latest_eps, some previous_eps =>
        if previous_eps = 0 then none
        else some ((latest_eps - previous_eps) / previous_eps * 100)
      | _, _ => none) = none
  by_cases hlen : (dictValues d).length < 2
  · rw [if_pos hlen]
  · rw [if_neg hlen, h1]
    cases h0 : parseFloat (stripCurrency ((dictValues d).getD 0 "")) <;> simp

theorem annual_growth_zero_baseline_none (d : List (String × String))
    (h2 : parseFloat (stripCurrency ((dictValues d).getD 2 "")) = some 0) :
    Canslim.calculate_annual_eps_growth d = none := by
  show (if (dictValues d).length < 3 then none
    else match parseFloat (stripCurrency ((dictValues d).getD 0 "")),
        parseFloat (stripCurrency ((dictValues d).getD 2 "")) with
      | some latest_eps, some three_years_ago_eps =>
        if three_years_ago_eps = 0 then none
        else some ((latest_eps - three_years_ago_eps) / three_years_ago_eps * 100)
      | _, _ => none) = none
  by_cases hlen : (dictValues d).length < 3
  · rw [if_pos hlen]
  · rw [if_neg hlen, h2]
    cases h0 : parseFloat (stripCurrency ((dictValues d).getD 0 "")) <;> simp

/-! ## Claims -/

/-- Claim C1, amended: a ticker evaluation with no exception is marked as
passing CANSLIM screening iff both growth rates are not `None` and clear the
25 threshold — strictly (`> 25`) in `canslimprompt.py`, but only weakly
(`≥ 25`) in `canslim.py`, where a growth of exactly 25 passes. -/
theorem claim_C1_pass_thresholds :
    (∀ (t : String) (info : StockInfo) (q a : Option Soup),
      (Canslim.analyze_stock t (Except.ok info) q a).isSome = true ↔
        ((∃ g, Canslim.calculate_quarterly_eps_growth (Canslim.fetch_eps_data q) =
            some g ∧ 25 ≤ g) ∧
         (∃ g, Canslim.calculate_annual_eps_growth (Canslim.fetch_annual_eps_data a) =
            some g ∧ 25 ≤ g))) ∧
    (∀ (t : String) (info : StockInfo) (q a : Option Soup),
      (CanslimPrompt.analyze_stock t (Except.ok info) q a).map
          CanslimPrompt.PromptResult.meetsCriteria = some true ↔
        ((∃ g, CanslimPrompt.calculate_quarterly_eps_growth
            (CanslimPrompt.fetch_eps_data q) = some g ∧ 25 < g) ∧
         (∃ g, CanslimPrompt.calculate_annual_eps_growth
            (CanslimPrompt.fetch_annual_eps_data a) = some g ∧ 25 < g))) :=
  ⟨canslim_analyze_ok_isSome_iff, prompt_analyze_ok_meets_iff⟩

/-- Claim C1 counterexample: with quarterly and annual growth both exactly
25% and no exception, `canslim.py` marks the ticker as passing although
neither growth strictly exceeds 25, so the claimed iff is false there. -/
theorem claim_C1_counterexample :
    ¬ (((Canslim.analyze_stock "AAA" (Except.ok emptyInfo)
          (some pageQuarterBoundary) (some pageAnnualBoundary)).isSome = true) ↔
       ((∃ g, Canslim.calculate_quarterly_eps_growth
            (Canslim.fetch_eps_data (some pageQuarterBoundary)) = some g ∧ 25 < g) ∧
        (∃ g, Canslim.calculate_annual_eps_growth
            (Canslim.fetch_annual_eps_data (some pageAnnualBoundary)) = some g ∧
          25 < g))) := by
  have hf : Canslim.fetch_eps_data (some pageQuarterBoundary) =
      [("EPS 1", "$1.25"), ("EPS 2", "$1.00")] := by decide
  have ha : Canslim.fetch_annual_eps_data (some pageAnnualBoundary) =
      [("EPS 1", "$1.25"), ("EPS 2", "$1.10"), ("EPS 3", "$1.00")] := by decide
  have h125 : parseFloatScan (stripCurrency "$1.25") = some (false, 1, 25, 2) := by
    decide
  have h100 : parseFloatScan (stripCurrency "$1.00") = some (false, 1, 0, 2) := by
    decide
  have hq : Canslim.calculate_quarterly_eps_growth
      [("EPS 1", "$1.25"), ("EPS 2", "$1.00")] = some 25 := by
    simp [Canslim.calculate_quarterly_eps_growth, dictValues, parseFloat, h125, h100]
    norm_num
  have hag : Canslim.calculate_annual_eps_growth
      [("EPS 1", "$1.25"), ("EPS 2", "$1.10"), ("EPS 3", "$1.00")] = some 25 := by
    simp [Canslim.calculate_annual_eps_growth, dictValues, parseFloat, h125, h100]
    norm_num
  have hpass : (Canslim.analyze_stock "AAA" (Except.ok emptyInfo)
      (some pageQuarterBoundary) (some pageAnnualBoundary)).isSome = true := by
    simp [Canslim.analyze_stock, hf, ha, hq, hag]
  intro h
  obtain ⟨⟨g, hg, hlt⟩, -⟩ := h.mp hpass
  rw [hf, hq] at hg
  have hg25 : (25 : ℚ) = g := Option.some.inj hg
  rw [← hg25] at hlt
  exact lt_irrefl 25 hlt

/-- Claim C2, amended: in `canslimprompt.py`, for every ticker with no hard
fetch/parse exception the evaluation returns a result record, and `None`
occurs exactly when an exception aborts it; in `canslim.py`, evaluation also
returns `None` without any exception whenever the CANSLIM criteria are not
met — a record is returned iff no exception occurs and the criteria hold. -/
theorem claim_C2_result_record :
    (∀ (t : String) (info : StockInfo) (q a : Option Soup),
      (CanslimPrompt.analyze_stock t (Except.ok info) q a).isSome = true) ∧
    (∀ (t e : String) (q a : Option Soup),
      CanslimPrompt.analyze_stock t (Except.error e) q a = none) ∧
    (∀ (t e : String) (q a : Option Soup),
      Canslim.analyze_stock t (Except.error e) q a = none) ∧
    (∀ (t : String) (info : StockInfo) (q a : Option Soup),
      Canslim.analyze_stock t (Except.ok info) q a = none ↔
        ¬ ((∃ g, Canslim.calculate_quarterly_eps_growth (Canslim.fetch_eps_data q) =
              some g ∧ 25 ≤ g) ∧
           (∃ g, Canslim.calculate_annual_eps_growth (Canslim.fetch_annual_eps_data a) =
              some g ∧ 25 ≤ g))) := by
  refine ⟨prompt_analyze_ok_isSome, prompt_analyze_error_eq_none,
    canslim_analyze_error_eq_none, ?_⟩
  intro t info q a
  rw [← Option.not_isSome_iff_eq_none]
  simp only [canslim_analyze_ok_isSome_iff]

/-- Claim C2 counterexample: this evaluation has no exception (the quote
lookup succeeds, both fetches merely return the unavailable sentinel, which
is not an exception), yet `canslim.py` returns `None` instead of a record —
the criteria are unmet, refuting the claim as stated. -/
theorem claim_C2_counterexample :
    Canslim.analyze_stock "AAA" (Except.ok emptyInfo) none none = none := by
  decide
/-- Claim C3, confirmed: when the first two values of the series strip and
parse to `latest` and a nonzero `baseline`, the quarterly growth is
`(latest - baseline) / baseline * 100`; for `["$2.00", "$1.00"]` it is 100. -/
theorem claim_C3_quarterly_formula (d : List (String × String))
    (latest baseline : ℚ)
    (hlen : 2 ≤ (dictValues d).length)
    (h0 : parseFloat (stripCurrency ((dictValues d).getD 0 "")) = some latest)
    (h1 : parseFloat (stripCurrency ((dictValues d).getD 1 "")) = some baseline)
    (hnz : baseline ≠ 0) :
    Canslim.calculate_quarterly_eps_growth d =
      some ((latest - baseline) / baseline * 100) := by
  show (if (dictValues d).length < 2 then none
    else match parseFloat (stripCurrency ((dictValues d).getD 0 "")),
        parseFloat (stripCurrency ((dictValues d).getD 1 "")) with
      | some latest_eps, some previous_eps =>
        if previous_eps = 0 then none
        else some ((latest_eps - previous_eps) / previous_eps * 100)
      | _, _ => none) = some ((latest - baseline) / baseline * 100)
  rw [if_neg (by omega), h0, h1]
  simp [hnz]

/-- Claim C3 witness: the spec's example series `["$2.00", "$1.00"]` yields
quarterly growth 100. -/
theorem claim_C3_witness :
    Canslim.calculate_quarterly_eps_growth
      [("EPS 1", "$2.00"), ("EPS 2", "$1.00")] = some 100 := by
  have h0 : parseFloat (stripCurrency
      ((dictValues [("EPS 1", "$2.00"), ("EPS 2", "$1.00")]).getD 0 "")) = some 2 := by
    rw [show (dictValues [("EPS 1", "$2.00"), ("EPS 2", "$1.00")]).getD 0 "" =
      "$2.00" from by decide]
    have h : parseFloatScan (stripCurrency "$2.00") = some (false, 2, 0, 2) := by
      decide
    simp [parseFloat, h]
  have h1 : parseFloat (stripCurrency
      ((dictValues [("EPS 1", "$2.00"), ("EPS 2", "$1.00")]).getD 1 "")) = some 1 := by
    rw [show (dictValues [("EPS 1", "$2.00"), ("EPS 2", "$1.00")]).getD 1 "" =
      "$1.00" from by decide]
    have h : parseFloatScan (stripCurrency "$1.00") = some (false, 1, 0, 2) := by
      decide
    simp [parseFloat, h]
  have hmain := claim_C3_quarterly_formula
    [("EPS 1", "$2.00"), ("EPS 2", "$1.00")] 2 1 (by decide) h0 h1 (by norm_num)
  rw [hmain]
  norm_num

/-- Claim C4, confirmed: with at least 3 values, the annual growth compares
position 0 against position 2 (position 1 does not occur in the result); for
`["$1.25", "$1.00", "$1.00"]` it is 25. -/
theorem claim_C4_annual_baseline (d : List (String × String))
    (latest baseline : ℚ)
    (hlen : 3 ≤ (dictValues d).length)
    (h0 : parseFloat (stripCurrency ((dictValues d).getD 0 "")) = some latest)
    (h2 : parseFloat (stripCurrency ((dictValues d).getD 2 "")) = some baseline)
    (hnz : baseline ≠ 0) :
    Canslim.calculate_annual_eps_growth d =
      some ((latest - baseline) / baseline * 100) := by
  show (if (dictValues d).length < 3 then none
    else match parseFloat (stripCurrency ((dictValues d).getD 0 "")),
        parseFloat (stripCurrency ((dictValues d).getD 2 "")) with
      | some latest_eps, some three_years_ago_eps =>
        if three_years_ago_eps = 0 then none
        else some ((latest_eps - three_years_ago_eps) / three_years_ago_eps * 100)
      | _, _ => none) = some ((latest - baseline) / baseline * 100)
  rw [if_neg (by omega), h0, h2]
  simp [hnz]

/-- Claim C4 witness: the spec's example `["$1.25", "$1.00", "$1.00"]` yields
annual growth 25, and changing position 1 to `$9.99` leaves the result at 25,
showing the baseline is position 2, not position 1. -/
theorem claim_C4_witness :
    Canslim.calculate_annual_eps_growth
      [("EPS 1", "$1.25"), ("EPS 2", "$1.00"), ("EPS 3", "$1.00")] = some 25 ∧
    Canslim.calculate_annual_eps_growth
      [("EPS 1", "$1.25"), ("EPS 2", "$9.99"), ("EPS 3", "$1.00")] = some 25 := by
  have hs125 : parseFloatScan (stripCurrency "$1.25") = some (false, 1, 25, 2) := by
    decide
  have hs100 : parseFloatScan (stripCurrency "$1.00") = some (false, 1, 0, 2) := by
    decide
  have hp125 : parseFloat (stripCurrency "$1.25") = some (5 / 4) := by
    simp [parseFloat, hs125]
    norm_num
  have hp100 : parseFloat (stripCurrency "$1.00") = some 1 := by
    simp [parseFloat, hs100]
  constructor
  · have h0 : parseFloat (stripCurrency ((dictValues
        [("EPS 1", "$1.25"), ("EPS 2", "$1.00"), ("EPS 3", "$1.00")]).getD 0 "")) =
        some (5 / 4) := by
      rw [show (dictValues
        [("EPS 1", "$1.25"), ("EPS 2", "$1.00"), ("EPS 3", "$1.00")]).getD 0 "" =
        "$1.25" from by decide]
      exact hp125
    have h2 : parseFloat (stripCurrency ((dictValues
        [("EPS 1", "$1.25"), ("EPS 2", "$1.00"), ("EPS 3", "$1.00")]).getD 2 "")) =
        some 1 := by
      rw [show (dictValues
        [("EPS 1", "$1.25"), ("EPS 2", "$1.00"), ("EPS 3", "$1.00")]).getD 2 "" =
        "$1.00" from by decide]
      exact hp100
    have hmain := claim_C4_annual_baseline
      [("EPS 1", "$1.25"), ("EPS 2", "$1.00"), ("EPS 3", "$1.00")]
      (5 / 4) 1 (by decide) h0 h2 (by norm_num)
    rw [hmain]
    norm_num
  · have h0 : parseFloat (stripCurrency ((dictValues
        [("EPS 1", "$1.25"), ("EPS 2", "$9.99"), ("EPS 3", "$1.00")]).getD 0 "")) =
        some (5 / 4) := by
      rw [show (dictValues
        [("EPS 1", "$1.25"), ("EPS 2", "$9.99"), ("EPS 3", "$1.00")]).getD 0 "" =
        "$1.25" from by decide]
      exact hp125
    have h2 : parseFloat (stripCurrency ((dictValues
        [("EPS 1", "$1.25"), ("EPS 2", "$9.99"), ("EPS 3", "$1.00")]).getD 2 "")) =
        some 1 := by
      rw [show (dictValues
        [("EPS 1", "$1.25"), ("EPS 2", "$9.99"), ("EPS 3", "$1.00")]).getD 2 "" =
        "$1.00" from by decide]
      exact hp100
    have hmain := claim_C4_annual_baseline
      [("EPS 1", "$1.25"), ("EPS 2", "$9.99"), ("EPS 3", "$1.00")]
      (5 / 4) 1 (by decide) h0 h2 (by norm_num)
    rw [hmain]
    norm_num

/-- Claim C5, confirmed: with fewer than 2 entries the quarterly growth is
`None`, and with fewer than 3 entries the annual growth is `None`. -/
theorem claim_C5_min_entries :
    (∀ d : List (String × String), (dictValues d).length < 2 →
      Canslim.calculate_quarterly_eps_growth d = none) ∧
    (∀ d : List (String × String), (dictValues d).length < 3 →
      Canslim.calculate_annual_eps_growth d = none) :=
  ⟨quarterly_growth_short_none, annual_growth_short_none⟩

/-- Claim C5 witness: a 1-entry series has quarterly growth `None`, and a
2-entry series has annual growth `None`. -/
theorem claim_C5_witness :
    Canslim.calculate_quarterly_eps_growth [("EPS 1", "$1.00")] = none ∧
    Canslim.calculate_annual_eps_growth
      [("EPS 1", "$1.00"), ("EPS 2", "$1.00")] = none :=
  ⟨claim_C5_min_entries.1 _ (by decide), claim_C5_min_entries.2 _ (by decide)⟩

/-- Claim C6, confirmed: when the baseline value (position 1 for quarterly,
position 2 for annual) parses to exactly zero, both growth functions return
`None` regardless of the latest value — the guard fires before any
division. -/
theorem claim_C6_zero_baseline :
    (∀ d : List (String × String),
      parseFloat (stripCurrency ((dictValues d).getD 1 "")) = some 0 →
      Canslim.calculate_quarterly_eps_growth d = none) ∧
    (∀ d : List (String × String),
      parseFloat (stripCurrency ((dictValues d).getD 2 "")) = some 0 →
      Canslim.calculate_annual_eps_growth d = none) :=
  ⟨quarterly_growth_zero_baseline_none, annual_growth_zero_baseline_none⟩

/-- Claim C6 witness: a `$0.00` baseline yields `None` for both growth
functions even though the latest value is a healthy `$5.00`. -/
theorem claim_C6_witness :
    Canslim.calculate_quarterly_eps_growth
      [("EPS 1", "$5.00"), ("EPS 2", "$0.00")] = none ∧
    Canslim.calculate_annual_eps_growth
      [("EPS 1", "$5.00"), ("EPS 2", "$1.00"), ("EPS 3", "$0.00")] = none := by
  have hz : parseFloat (stripCurrency "$0.00") = some 0 := by
    have h : parseFloatScan (stripCurrency "$0.00") = some (false, 0, 0, 2) := by
      decide
    simp [parseFloat, h]
  constructor
  · refine claim_C6_zero_baseline.1 _ ?_
    rw [show (dictValues [("EPS 1", "$5.00"), ("EPS 2", "$0.00")]).getD 1 "" =
      "$0.00" from by decide]
    exact hz
  · refine claim_C6_zero_baseline.2 _ ?_
    rw [show (dictValues
      [("EPS 1", "$5.00"), ("EPS 2", "$1.00"), ("EPS 3", "$0.00")]).getD 2 "" =
      "$0.00" from by decide]
    exact hz

/-- Claim C7, confirmed: when all 3 attempts fail, `fetch_data_with_retry`
returns the unavailable sentinel `None` (never raising — the model is a total
function); when some attempt succeeds, the body of the first successful
attempt is returned and exactly that many attempts are performed, so no
further attempt follows the first success. Covers both source variants. -/
theorem claim_C7_retry_contract :
    (∀ req : ℕ → Option String, req 0 = none → req 1 = none → req 2 = none →
      Canslim.fetch_data_with_retry req = none) ∧
    (∀ (req : ℕ → Option String) (i : ℕ) (body : String), i < 3 →
      (∀ j, j < i → req j = none) → req i = some body →
      Canslim.fetch_data_with_retry req = some body ∧
        Canslim.fetch_attempts_used req = i + 1) ∧
    (∀ (ua : ℕ → String) (req : ℕ → String → Option String),
      req 0 (ua 0) = none → req 1 (ua 1) = none → req 2 (ua 2) = none →
      CanslimPrompt.fetch_data_with_retry ua req = none) ∧
    (∀ (ua : ℕ → String) (req : ℕ → String → Option String) (i : ℕ)
        (body : String), i < 3 → (∀ j, j < i → req j (ua j) = none) →
      req i (ua i) = some body →
      CanslimPrompt.fetch_data_with_retry ua req = some body) := by
  refine ⟨?_, ?_, ?_, ?_⟩
  · intro req h0 h1 h2
    have h := retryLoop_all_fail req 3 0
      (fun j hj => by interval_cases j <;> simp only [Nat.zero_add] <;> assumption)
    simp [Canslim.fetch_data_with_retry, h]
  · intro req i body hi hfail hsucc
    have h := retryLoop_first_success req 3 0 i body hi
      (fun j hj => by simpa using hfail j hj) (by simpa using hsucc)
    exact ⟨by simp [Canslim.fetch_data_with_retry, h],
      by simp [Canslim.fetch_attempts_used, h]⟩
  · intro ua req h0 h1 h2
    have h := retryLoop_all_fail (fun attempt => req attempt (ua attempt)) 3 0
      (fun j hj => by interval_cases j <;> simp only [Nat.zero_add] <;> assumption)
    simp [CanslimPrompt.fetch_data_with_retry, h]
  · intro ua req i body hi hfail hsucc
    have h := retryLoop_first_success (fun attempt => req attempt (ua attempt))
      3 0 i body hi (fun j hj => by simpa using hfail j hj) (by simpa using hsucc)
    simp [CanslimPrompt.fetch_data_with_retry, h]

/-- Claim C7 witness: a request that always fails exhausts all 3 attempts and
yields `None`; a request that succeeds on the second attempt yields that body
after exactly 2 attempts; likewise for the user-agent-rotating variant. -/
theorem claim_C7_witness :
    Canslim.fetch_data_with_retry (fun _ => (none : Option String)) = none ∧
    (Canslim.fetch_data_with_retry
        (fun j => if j = 1 then some "page" else none) = some "page" ∧
      Canslim.fetch_attempts_used
        (fun j => if j = 1 then some "page" else none) = 2) ∧
    CanslimPrompt.fetch_data_with_retry (fun _ => "agent")
      (fun _ _ => (none : Option String)) = none ∧
    CanslimPrompt.fetch_data_with_retry (fun _ => "agent")
      (fun j _ => if j = 0 then some "page" else none) = some "page" := by
  refine ⟨?_, ?_, ?_, ?_⟩
  · exact claim_C7_retry_contract.1 _ rfl rfl rfl
  · exact claim_C7_retry_contract.2.1 _ 1 "page" (by omega)
      (fun j hj => by interval_cases j; rfl) rfl
  · exact claim_C7_retry_contract.2.2.1 _ _ rfl rfl rfl
  · exact claim_C7_retry_contract.2.2.2 _ _ 0 "page" (by omega)
      (fun j hj => absurd hj (Nat.not_lt_zero j)) rfl

/-- Claim C8, confirmed: when the page has no table, or no table row with at
least 3 cells whose first cell's text contains `"EPS"`, both extractors
return an empty series (the model does not raise: it is a total function). -/
theorem claim_C8_no_match_empty (soup : Soup)
    (h : soup.tables.head? = none ∨
      ∃ tbl, soup.tables.head? = some tbl ∧
        ∀ row ∈ tbl.rows, row.cells.length < 3 ∨
          strIn "EPS" (pyStrip (row.cells.getD 0 "")) = false) :
    Canslim.fetch_eps_data (some soup) = [] ∧
    CanslimPrompt.fetch_eps_data (some soup) = [] := by
  rcases h with hnone | ⟨tbl, htbl, hrows⟩
  · constructor <;>
      simp [Canslim.fetch_eps_data, CanslimPrompt.fetch_eps_data, hnone]
  · have hscan := epsRowScan_no_match tbl.rows hrows
    constructor <;>
      simp [Canslim.fetch_eps_data, CanslimPrompt.fetch_eps_data, htbl, hscan]

/-- Claim C8 witness: a page whose table has a non-EPS row and an EPS row
with fewer than 3 cells yields an empty series from both extractors. -/
theorem claim_C8_witness :
    Canslim.fetch_eps_data (some pageNoEps) = [] ∧
    CanslimPrompt.fetch_eps_data (some pageNoEps) = [] :=
  claim_C8_no_match_empty pageNoEps
    (Or.inr ⟨⟨[⟨["Revenue", "10", "12"]⟩, ⟨["EPS (Basic)"]⟩]⟩, rfl, by decide⟩)

/-- Claim C9, confirmed: every extractor output is either empty or has at
least 2 entries (a matched row has at least 3 cells and every cell after the
first is kept), so the quarterly calculator's fewer-than-2-entries branch
cannot fire on a non-empty extractor output. -/
theorem claim_C9_extractor_invariant :
    (∀ r : Option Soup,
      Canslim.fetch_eps_data r = [] ∨ 2 ≤ (Canslim.fetch_eps_data r).length) ∧
    (∀ r : Option Soup, Canslim.fetch_eps_data r ≠ [] →
      ¬ (dictValues (Canslim.fetch_eps_data r)).length < 2) := by
  refine ⟨fetch_eps_data_nil_or_two, ?_⟩
  intro r hne
  rcases fetch_eps_data_nil_or_two r with h | h
  · exact absurd h hne
  · simp only [dictValues, List.length_map]
    omega

/-- Claim C9 witness: on a page with a matched EPS row the extractor output
is non-empty, and its value list is not shorter than 2. -/
theorem claim_C9_witness :
    ¬ (dictValues (Canslim.fetch_eps_data (some pageQuarterBoundary))).length < 2 :=
  claim_C9_extractor_invariant.2 _ (by decide)

/-- Claim C10, confirmed: the quarterly and the annual extractor apply the
same extraction to the fetch outcome — equal outputs for every same outcome,
in both source files — and their URLs differ only in the `?p=` selector. -/
theorem claim_C10_extractors_agree :
    (∀ r : Option Soup,
      Canslim.fetch_eps_data r = Canslim.fetch_annual_eps_data r) ∧
    (∀ r : Option Soup,
      CanslimPrompt.fetch_eps_data r = CanslimPrompt.fetch_annual_eps_data r) ∧
    (∀ t : String,
      Canslim.quarterly_url t = financialsUrl t "quarterly" ∧
      Canslim.annual_url t = financialsUrl t "annual" ∧
      CanslimPrompt.quarterly_url t = financialsUrl t "quarterly" ∧
      CanslimPrompt.annual_url t = financialsUrl t "annual") := by
  refine ⟨fun r => rfl, fun r => rfl, fun t => ⟨?_, ?_, ?_, ?_⟩⟩ <;>
    · show _ = (("https://stockanalysis.com/stocks/" ++ t) ++ "/financials/?p=") ++ _
      conv_rhs => rw [String.append_assoc]
      rfl
